import Mathlib

/-!
Verification of the MoveMaster pricing engine
(backend/app/services/pricing_engine.py) against its natural-language
specification.

The engine is a pure, config-driven calculation over arbitrary-precision
decimals.  We embed it shallowly: Python `Decimal` values become `ℚ`,
Python `int` becomes `ℤ`, dictionaries keyed by strings become
association lists, and `datetime.date` becomes a record of the three
observations the engine makes of a date (month, day, weekday with the
Python convention Monday = 0 .. Sunday = 6).  `round(x, 2)` on `Decimal`
uses bankers rounding (ROUND_HALF_EVEN), which we model exactly.
-/

/-- Round a rational to the nearest integer, ties to the even integer.
This is the rounding mode Python `Decimal` uses for `round`/`quantize`
(ROUND_HALF_EVEN). -/
def roundHalfEven (q : ℚ) : ℤ :=
  if q - ⌊q⌋ < 1/2 then ⌊q⌋
  else if (1:ℚ)/2 < q - ⌊q⌋ then ⌊q⌋ + 1
  else if ⌊q⌋ % 2 = 0 then ⌊q⌋ else ⌊q⌋ + 1

/-- `round(x, 2)` on Python Decimals: round to 2 decimal places, half to even. -/
def round2 (q : ℚ) : ℚ := (roundHalfEven (q * 100) : ℚ) / 100

/-- `round(x, 1)` on Python Decimals: round to 1 decimal place, half to even. -/
def round1 (q : ℚ) : ℚ := (roundHalfEven (q * 10) : ℚ) / 10

theorem roundHalfEven_intCast (n : ℤ) : roundHalfEven (n : ℚ) = n := by
  unfold roundHalfEven
  norm_num

theorem le_roundHalfEven (q : ℚ) : ⌊q⌋ ≤ roundHalfEven q := by
  unfold roundHalfEven
  split_ifs <;> omega

theorem roundHalfEven_le (q : ℚ) : roundHalfEven q ≤ ⌊q⌋ + 1 := by
  unfold roundHalfEven
  split_ifs <;> omega

theorem roundHalfEven_mono {x y : ℚ} (h : x ≤ y) :
    roundHalfEven x ≤ roundHalfEven y := by
  have hf : ⌊x⌋ ≤ ⌊y⌋ := Int.floor_mono h
  rcases lt_or_eq_of_le hf with hlt | heq
  · calc roundHalfEven x ≤ ⌊x⌋ + 1 := roundHalfEven_le x
      _ ≤ ⌊y⌋ := by omega
      _ ≤ roundHalfEven y := le_roundHalfEven y
  · unfold roundHalfEven
    rw [← heq]
    split_ifs <;> first | omega | (exfalso; linarith)

theorem round2_mono {x y : ℚ} (h : x ≤ y) : round2 x ≤ round2 y := by
  unfold round2
  have h100 : x * 100 ≤ y * 100 := by linarith
  have := roundHalfEven_mono h100
  have hc : ((roundHalfEven (x * 100) : ℤ) : ℚ) ≤ ((roundHalfEven (y * 100) : ℤ) : ℚ) :=
    Int.cast_le.mpr this
  linarith

/-- A value already rounded to 2 decimals is a fixed point of `round2`;
in particular the sum of two rounded values is again rounded, so
`round(net + vat, 2) = net + vat` exactly. -/
theorem round2_add_round2 (x y : ℚ) :
    round2 (round2 x + round2 y) = round2 x + round2 y := by
  unfold round2
  have h : ((roundHalfEven (x * 100) : ℚ) / 100 + (roundHalfEven (y * 100) : ℚ) / 100) * 100
      = ((roundHalfEven (x * 100) + roundHalfEven (y * 100) : ℤ) : ℚ) := by
    push_cast
    ring
  rw [h, roundHalfEven_intCast]
  push_cast
  ring

/-- Evaluation helper: when `q * 100` is the integer `n`, rounding does
nothing and `round2 q = n / 100`. -/
theorem round2_eval (q : ℚ) (n : ℤ) (h : q * 100 = (n : ℚ)) :
    round2 q = (n : ℚ) / 100 := by
  unfold round2
  rw [h, roundHalfEven_intCast]

/-- Evaluation helper for integer ceilings. -/
theorem ceil_eval (q : ℚ) (n : ℤ) (h1 : (n : ℚ) - 1 < q) (h2 : q ≤ (n : ℚ)) :
    ⌈q⌉ = n := by
  refine le_antisymm (Int.ceil_le.mpr h2) ?_
  have := Int.lt_ceil.mpr (show ((n - 1 : ℤ) : ℚ) < q by push_cast; linarith)
  omega

/-! ## Data model (schemas/quote.py, restricted to the fields the engine reads) -/

/-- InventoryItem (schemas/quote.py).  `quantity` is a Python `int`. -/
structure InventoryItem where
  name : String
  category : Option String
  volume_m3 : ℚ
  quantity : ℤ

/-- Service (schemas/quote.py).  The engine reads numeric metadata fields
(`kitchen_meters`, `disposal_m3`, `carry_distance_m`, `declared_value`)
through `Decimal(str(...))`; we model the metadata dictionary as an
association list of numeric values. -/
structure Service where
  service_type : String
  enabled : Bool
  metadata : List (String × ℚ)

/-- The three observations the engine makes of a `datetime.date`:
`month`, `day`, and `weekday()` (Python convention Monday = 0 .. Sunday = 6). -/
structure MoveDate where
  month : ℕ
  day : ℕ
  weekday : ℕ

/-- `dict.get(k, d)` on a string-keyed dictionary of rationals. -/
def dget (m : List (String × ℚ)) (k : String) (d : ℚ) : ℚ :=
  match m.find? (fun p => p.1 == k) with
  | some p => p.2
  | none => d

/-- `service.metadata.get(k, 0)` followed by the `Decimal` conversion. -/
def mget (m : List (String × ℚ)) (k : String) : ℚ := dget m k 0

/-- Python substring test `needle in hay`. -/
def strContains (hay needle : String) : Bool := decide (needle.toList <:+: hay.toList)

/-- The resolved engine configuration (PricingEngine.__init__): every
tunable the engine reads, after merging company overrides over global
settings.  Dictionaries become association lists (Python dicts iterate
in insertion order, which `heavy_item_surcharges` relies on). -/
structure PricingConfig where
  base_rate_m3_min : ℚ
  base_rate_m3_max : ℚ
  rate_km_near : ℚ
  rate_km_far : ℚ
  km_threshold : ℚ
  hourly_labor_min : ℚ
  hourly_labor_max : ℚ
  min_movers : ℤ
  floor_surcharge_percent : ℚ
  hvz_permit_cost : ℚ
  kitchen_assembly_per_meter : ℚ
  external_lift_cost_min : ℚ
  external_lift_cost_max : ℚ
  vat_rate : ℚ
  enable_regional : Bool
  regional_multipliers : List (String × ℚ)
  enable_seasonal : Bool
  seasonal_peak_months : List ℕ
  seasonal_peak_multiplier : ℚ
  seasonal_offpeak_months : List ℕ
  seasonal_offpeak_multiplier : ℚ
  weekend_surcharge_percent : ℚ
  holiday_surcharge_percent : ℚ
  packing_materials_per_m3 : ℚ
  heavy_item_surcharges : List (String × ℚ)
  long_carry_per_10m : ℚ
  disposal_base_cost : ℚ
  disposal_per_m3 : ℚ
  insurance_basic_flat : ℚ
  insurance_premium_percent : ℚ
  insurance_premium_min : ℚ

/-! ## Module-level helpers of pricing_engine.py -/

/-- GERMAN_FIXED_HOLIDAYS: fixed-date German public holidays as
(month, day) pairs. -/
def GERMAN_FIXED_HOLIDAYS : List (ℕ × ℕ) :=
  [(1, 1), (5, 1), (10, 3), (12, 25), (12, 26)]

/-- `_is_german_holiday`: membership of (month, day) in the fixed list. -/
def is_german_holiday (d : MoveDate) : Bool :=
  GERMAN_FIXED_HOLIDAYS.contains (d.month, d.day)

/-- `_is_weekend`: Python `weekday() >= 5` (Saturday or Sunday). -/
def is_weekend (d : MoveDate) : Bool := decide (5 ≤ d.weekday)

/-! ## PricingEngine methods -/

/-- The literal postal-prefix to region table inside
`get_regional_multiplier`; any other prefix maps to "default". -/
def region_of_postal_code (pfx : String) : String :=
  match pfx with
  | "80" => "munich" | "81" => "munich" | "85" => "munich"
  | "60" => "frankfurt" | "61" => "frankfurt" | "65" => "frankfurt"
  | "70" => "stuttgart" | "71" => "stuttgart" | "73" => "stuttgart"
  | "20" => "hamburg" | "21" => "hamburg" | "22" => "hamburg"
  | "10" => "berlin" | "12" => "berlin" | "13" => "berlin" | "14" => "berlin"
  | "50" => "cologne" | "51" => "cologne"
  | _ => "default"

/-- `PricingEngine.get_regional_multiplier`.  A `none` postal code and the
empty string are both falsy in Python (`not postal_code`). -/
def get_regional_multiplier (cfg : PricingConfig) (postal_code : Option String) : ℚ :=
  if cfg.enable_regional = false then 1
  else
    match postal_code with
    | none => 1
    | some s =>
      if s = "" then 1
      else
        dget cfg.regional_multipliers (region_of_postal_code (s.take 2))
          (dget cfg.regional_multipliers "default" 1)

/-- `PricingEngine.get_seasonal_multiplier`. -/
def get_seasonal_multiplier (cfg : PricingConfig) (moving_date : Option MoveDate) : ℚ :=
  if cfg.enable_seasonal = false then 1
  else
    match moving_date with
    | none => 1
    | some d =>
      if d.month ∈ cfg.seasonal_peak_months then cfg.seasonal_peak_multiplier
      else if d.month ∈ cfg.seasonal_offpeak_months then cfg.seasonal_offpeak_multiplier
      else 1

/-- `PricingEngine.get_weekend_holiday_surcharge`: holiday first, then
weekend, else 0; no date gives 0. -/
def get_weekend_holiday_surcharge (cfg : PricingConfig) (moving_date : Option MoveDate) : ℚ :=
  match moving_date with
  | none => 0
  | some d =>
    if is_german_holiday d then cfg.holiday_surcharge_percent
    else if is_weekend d then cfg.weekend_surcharge_percent
    else 0

/-- `PricingEngine.calculate_volume`: running sum of volume × quantity. -/
def calculate_volume (inventory : List InventoryItem) : ℚ :=
  inventory.foldl (fun acc item => acc + item.volume_m3 * (item.quantity : ℚ)) 0

/-- `PricingEngine.calculate_man_hours`: loading effort 0.12 h/m³, stairs
penalty 0.02 h/m³ per floor per elevator-less endpoint, optional
disassembly (0.15 h/m³) and packing (0.25 h/m³) effort, floored at 4. -/
def calculate_man_hours (volume : ℚ) (origin_floor destination_floor : ℤ)
    (origin_has_elevator destination_has_elevator : Bool)
    (has_disassembly has_packing : Bool) : ℚ :=
  let base_man_hours := volume * (0.12 : ℚ)
  let stairs_effort :=
    (if origin_has_elevator = false ∧ 0 < origin_floor
      then (origin_floor : ℚ) * volume * (0.02 : ℚ) else 0) +
    (if destination_has_elevator = false ∧ 0 < destination_floor
      then (destination_floor : ℚ) * volume * (0.02 : ℚ) else 0)
  let service_man_hours :=
    (if has_disassembly then volume * (0.15 : ℚ) else 0) +
    (if has_packing then volume * (0.25 : ℚ) else 0)
  max (base_man_hours + stairs_effort + service_man_hours) 4

/-- `PricingEngine.determine_crew_size`: volume steps 2/3/4, raised to
the configured minimum. -/
def determine_crew_size (cfg : PricingConfig) (volume : ℚ) : ℤ :=
  let needed : ℤ := if volume < 20 then 2 else if volume < 45 then 3 else 4
  max needed cfg.min_movers

/-- `PricingEngine.calculate_distance_cost`: tiered base cost with a
±10% spread. -/
def calculate_distance_cost (cfg : PricingConfig) (distance_km : ℚ) : ℚ × ℚ :=
  let spread : ℚ := 0.10
  let base_cost :=
    if distance_km ≤ cfg.km_threshold then distance_km * cfg.rate_km_near
    else cfg.km_threshold * cfg.rate_km_near + (distance_km - cfg.km_threshold) * cfg.rate_km_far
  (base_cost * (1 - spread), base_cost * (1 + spread))

/-- `PricingEngine.calculate_floor_surcharge`: floors above the 2nd at
elevator-less endpoints, as a percentage of a caller-supplied base cost. -/
def calculate_floor_surcharge (cfg : PricingConfig) (base_cost_min base_cost_max : ℚ)
    (origin_floor destination_floor : ℤ)
    (origin_has_elevator destination_has_elevator : Bool) : ℚ × ℚ :=
  let floors : ℚ :=
    (if origin_has_elevator = false ∧ 2 < origin_floor
      then ((origin_floor - 2 : ℤ) : ℚ) else 0) +
    (if destination_has_elevator = false ∧ 2 < destination_floor
      then ((destination_floor - 2 : ℤ) : ℚ) else 0)
  if 0 < floors then
    (base_cost_min * cfg.floor_surcharge_percent * floors,
     base_cost_max * cfg.floor_surcharge_percent * floors)
  else (0, 0)

/-- One iteration of the service loop in
`PricingEngine.calculate_services_cost`: add the enabled service cost
to the running (min, max) pair; unknown types add nothing. -/
def service_cost_step (cfg : PricingConfig) (volume : ℚ) (acc : ℚ × ℚ) (s : Service) : ℚ × ℚ :=
  if s.enabled = false then acc
  else if s.service_type = "hvz_permit" then
    (acc.1 + cfg.hvz_permit_cost, acc.2 + cfg.hvz_permit_cost)
  else if s.service_type = "kitchen_assembly" then
    let meters := mget s.metadata "kitchen_meters"
    (acc.1 + meters * cfg.kitchen_assembly_per_meter,
     acc.2 + meters * cfg.kitchen_assembly_per_meter)
  else if s.service_type = "external_lift" then
    (acc.1 + cfg.external_lift_cost_min, acc.2 + cfg.external_lift_cost_max)
  else if s.service_type = "packing" then
    let materials := volume * cfg.packing_materials_per_m3
    (acc.1 + materials, acc.2 + materials)
  else if s.service_type = "disposal" then
    let disposal_m3 := mget s.metadata "disposal_m3"
    let cost := cfg.disposal_base_cost + disposal_m3 * cfg.disposal_per_m3
    (acc.1 + cost, acc.2 + cost)
  else if s.service_type = "long_carry" then
    let distance_m := mget s.metadata "carry_distance_m"
    let chargeable := max (distance_m - 10) 0
    let units : ℤ := ⌈chargeable / 10⌉
    let cost := (units : ℚ) * cfg.long_carry_per_10m
    (acc.1 + cost, acc.2 + cost)
  else if s.service_type = "insurance_basic" then
    (acc.1 + cfg.insurance_basic_flat, acc.2 + cfg.insurance_basic_flat)
  else if s.service_type = "insurance_premium" then
    let declared_value := mget s.metadata "declared_value"
    let premium := max (declared_value * cfg.insurance_premium_percent) cfg.insurance_premium_min
    (acc.1 + premium, acc.2 + premium)
  else acc

/-- `PricingEngine.calculate_services_cost`. -/
def calculate_services_cost (cfg : PricingConfig) (services : List Service)
    (volume : ℚ) : ℚ × ℚ :=
  services.foldl (service_cost_step cfg volume) (0, 0)

/-- First matching keyword of the heavy-item table against the
lower-cased category and name of one item (`break` on first hit). -/
def heavy_item_match (cfg : PricingConfig) (item : InventoryItem) : Option (String × ℚ) :=
  let item_key := (item.category.getD "").toLower
  let item_name := item.name.toLower
  cfg.heavy_item_surcharges.find?
    (fun p => strContains item_key p.1 || strContains item_name p.1)

/-- `PricingEngine.calculate_heavy_item_surcharges`. -/
def calculate_heavy_item_surcharges (cfg : PricingConfig)
    (inventory : List InventoryItem) : ℚ :=
  inventory.foldl
    (fun acc item =>
      match heavy_item_match cfg item with
      | some p => acc + p.2 * (item.quantity : ℚ)
      | none => acc)
    0

/-- `PricingEngine.should_suggest_external_lift`. -/
def should_suggest_external_lift (floor : ℤ) (has_elevator : Bool) (volume : ℚ) : Bool :=
  (decide (4 < floor) && !has_elevator) ||
  (decide ((50 : ℚ) < volume) && decide (2 < floor) && !has_elevator)

/-! ## The quote result and PricingEngine.generate_quote -/

/-- The dictionary returned by `generate_quote`, flattened.  Breakdown
entries store the display-rounded values exactly as the source builds
them; the netto/vat/brutto totals are the load-bearing fields. -/
structure Quote where
  min_price : ℚ
  max_price : ℚ
  min_price_netto : ℚ
  max_price_netto : ℚ
  vat_amount_min : ℚ
  vat_amount_max : ℚ
  vat_rate : ℚ
  estimated_hours : ℚ
  volume_m3 : ℚ
  distance_km : ℚ
  man_hours : ℚ
  crew_size : ℤ
  travel_time : ℚ
  volume_cost_min : ℚ
  volume_cost_max : ℚ
  distance_cost_min : ℚ
  distance_cost_max : ℚ
  labor_cost_min : ℚ
  labor_cost_max : ℚ
  floor_surcharge_min : ℚ
  floor_surcharge_max : ℚ
  services_cost_min : ℚ
  services_cost_max : ℚ
  heavy_item_surcharge : ℚ
  mult_regional : ℚ
  mult_seasonal : ℚ
  mult_weekend_holiday : ℚ
  mult_combined : ℚ
  suggest_external_lift_origin : Bool
  suggest_external_lift_destination : Bool

/-- The argument list of `PricingEngine.generate_quote` (volume is the
explicit `volume` parameter; inventory is used only for heavy-item
surcharges inside this method). -/
structure MoveRequest where
  volume : ℚ
  distance_km : ℚ
  travel_time_hours : ℚ
  origin_floor : ℤ
  destination_floor : ℤ
  origin_has_elevator : Bool
  destination_has_elevator : Bool
  services : List Service
  origin_postal_code : Option String
  destination_postal_code : Option String
  moving_date : Option MoveDate
  inventory : List InventoryItem

/-- `PricingEngine.generate_quote`, lines 292-405 of pricing_engine.py,
with the same intermediate values in the same order. -/
def generate_quote (cfg : PricingConfig) (r : MoveRequest) : Quote :=
  let crew_size := determine_crew_size cfg r.volume
  let man_hours := calculate_man_hours r.volume r.origin_floor r.destination_floor
    r.origin_has_elevator r.destination_has_elevator
    (r.services.any (fun s => s.enabled && s.service_type == "disassembly"))
    (r.services.any (fun s => s.enabled && s.service_type == "packing"))
  let truck_travel_time0 := r.travel_time_hours * (1.15 : ℚ)
  let truck_travel_time :=
    if (4.5 : ℚ) < truck_travel_time0 then truck_travel_time0 + (0.75 : ℚ)
    else truck_travel_time0
  let loading_time := man_hours / (crew_size : ℚ)
  let total_duration := loading_time + truck_travel_time
  let volume_cost_min := r.volume * cfg.base_rate_m3_min
  let volume_cost_max := r.volume * cfg.base_rate_m3_max
  let dist := calculate_distance_cost cfg r.distance_km
  let labor_min := man_hours * cfg.hourly_labor_min
  let labor_max := man_hours * cfg.hourly_labor_max
  let fs := calculate_floor_surcharge cfg (volume_cost_min + labor_min)
    (volume_cost_max + labor_max) r.origin_floor r.destination_floor
    r.origin_has_elevator r.destination_has_elevator
  let serv := calculate_services_cost cfg r.services r.volume
  let heavy_surcharge := calculate_heavy_item_surcharges cfg r.inventory
  let netto_min0 := volume_cost_min + dist.1 + labor_min + fs.1 + serv.1 + heavy_surcharge
  let netto_max0 := volume_cost_max + dist.2 + labor_max + fs.2 + serv.2 + heavy_surcharge
  let regional_origin := get_regional_multiplier cfg r.origin_postal_code
  let regional_dest := get_regional_multiplier cfg r.destination_postal_code
  let regional_multiplier := max regional_origin regional_dest
  let seasonal_multiplier := get_seasonal_multiplier cfg r.moving_date
  let weekend_holiday_pct := get_weekend_holiday_surcharge cfg r.moving_date
  let combined_multiplier := regional_multiplier * seasonal_multiplier
  let netto_min1 := netto_min0 * combined_multiplier
  let netto_max1 := netto_max0 * combined_multiplier
  let netto_min2 :=
    if 0 < weekend_holiday_pct then netto_min1 * (1 + weekend_holiday_pct) else netto_min1
  let netto_max2 :=
    if 0 < weekend_holiday_pct then netto_max1 * (1 + weekend_holiday_pct) else netto_max1
  let netto_min := round2 netto_min2
  let netto_max := round2 netto_max2
  let vat_min := round2 (netto_min * cfg.vat_rate)
  let vat_max := round2 (netto_max * cfg.vat_rate)
  let brutto_min := round2 (netto_min + vat_min)
  let brutto_max := round2 (netto_max + vat_max)
  { min_price := brutto_min
    max_price := brutto_max
    min_price_netto := netto_min
    max_price_netto := netto_max
    vat_amount_min := vat_min
    vat_amount_max := vat_max
    vat_rate := cfg.vat_rate
    estimated_hours := round1 total_duration
    volume_m3 := round2 r.volume
    distance_km := round2 r.distance_km
    man_hours := round1 man_hours
    crew_size := crew_size
    travel_time := round1 truck_travel_time
    volume_cost_min := round2 volume_cost_min
    volume_cost_max := round2 volume_cost_max
    distance_cost_min := round2 dist.1
    distance_cost_max := round2 dist.2
    labor_cost_min := round2 labor_min
    labor_cost_max := round2 labor_max
    floor_surcharge_min := round2 fs.1
    floor_surcharge_max := round2 fs.2
    services_cost_min := round2 serv.1
    services_cost_max := round2 serv.2
    heavy_item_surcharge := round2 heavy_surcharge
    mult_regional := regional_multiplier
    mult_seasonal := seasonal_multiplier
    mult_weekend_holiday := weekend_holiday_pct
    mult_combined := combined_multiplier * (1 + weekend_holiday_pct)
    suggest_external_lift_origin :=
      should_suggest_external_lift r.origin_floor r.origin_has_elevator r.volume
    suggest_external_lift_destination :=
      should_suggest_external_lift r.destination_floor r.destination_has_elevator r.volume }

/-! ## Statement vocabulary: the quantities the spec talks about,
expressed through the embedded engine functions -/

/-- The man-hours figure `generate_quote` computes for a request. -/
def quote_man_hours (r : MoveRequest) : ℚ :=
  calculate_man_hours r.volume r.origin_floor r.destination_floor
    r.origin_has_elevator r.destination_has_elevator
    (r.services.any (fun s => s.enabled && s.service_type == "disassembly"))
    (r.services.any (fun s => s.enabled && s.service_type == "packing"))

/-- Sum of the six net cost components (volume, distance, labor, floor
surcharge, services, heavy items) on the min side, before multipliers. -/
def net_components_min (cfg : PricingConfig) (r : MoveRequest) : ℚ :=
  r.volume * cfg.base_rate_m3_min
    + (calculate_distance_cost cfg r.distance_km).1
    + quote_man_hours r * cfg.hourly_labor_min
    + (calculate_floor_surcharge cfg
        (r.volume * cfg.base_rate_m3_min + quote_man_hours r * cfg.hourly_labor_min)
        (r.volume * cfg.base_rate_m3_max + quote_man_hours r * cfg.hourly_labor_max)
        r.origin_floor r.destination_floor
        r.origin_has_elevator r.destination_has_elevator).1
    + (calculate_services_cost cfg r.services r.volume).1
    + calculate_heavy_item_surcharges cfg r.inventory

/-- Sum of the six net cost components on the max side. -/
def net_components_max (cfg : PricingConfig) (r : MoveRequest) : ℚ :=
  r.volume * cfg.base_rate_m3_max
    + (calculate_distance_cost cfg r.distance_km).2
    + quote_man_hours r * cfg.hourly_labor_max
    + (calculate_floor_surcharge cfg
        (r.volume * cfg.base_rate_m3_min + quote_man_hours r * cfg.hourly_labor_min)
        (r.volume * cfg.base_rate_m3_max + quote_man_hours r * cfg.hourly_labor_max)
        r.origin_floor r.destination_floor
        r.origin_has_elevator r.destination_has_elevator).2
    + (calculate_services_cost cfg r.services r.volume).2
    + calculate_heavy_item_surcharges cfg r.inventory

/-- The combined multiplicative factor of a quote: (larger regional
multiplier of the two endpoints) × seasonal multiplier. -/
def combined_mult (cfg : PricingConfig) (r : MoveRequest) : ℚ :=
  max (get_regional_multiplier cfg r.origin_postal_code)
      (get_regional_multiplier cfg r.destination_postal_code)
    * get_seasonal_multiplier cfg r.moving_date

/-- Pipeline lemma: the net minimum total is the rounded value of
(component sum) × (combined multiplier), times (1 + weekend/holiday
percent) when that percent is positive. -/
theorem generate_quote_netto_min (cfg : PricingConfig) (r : MoveRequest) :
    (generate_quote cfg r).min_price_netto
      = round2 ((net_components_min cfg r * combined_mult cfg r) *
          (if 0 < get_weekend_holiday_surcharge cfg r.moving_date
           then 1 + get_weekend_holiday_surcharge cfg r.moving_date else 1)) := by
  unfold generate_quote net_components_min combined_mult quote_man_hours
  by_cases h : 0 < get_weekend_holiday_surcharge cfg r.moving_date <;>
    simp only [if_pos, if_neg, h, if_true, if_false, mul_one]

/-- Pipeline lemma: the net maximum total, same shape as the minimum. -/
theorem generate_quote_netto_max (cfg : PricingConfig) (r : MoveRequest) :
    (generate_quote cfg r).max_price_netto
      = round2 ((net_components_max cfg r * combined_mult cfg r) *
          (if 0 < get_weekend_holiday_surcharge cfg r.moving_date
           then 1 + get_weekend_holiday_surcharge cfg r.moving_date else 1)) := by
  unfold generate_quote net_components_max combined_mult quote_man_hours
  by_cases h : 0 < get_weekend_holiday_surcharge cfg r.moving_date <;>
    simp only [if_pos, if_neg, h, if_true, if_false, mul_one]

/-! ## Concrete configurations and requests used as test inputs -/

/-- An all-zero configuration; concrete test configurations override the
fields they care about. -/
def cfgZero : PricingConfig where
  base_rate_m3_min := 0
  base_rate_m3_max := 0
  rate_km_near := 0
  rate_km_far := 0
  km_threshold := 0
  hourly_labor_min := 0
  hourly_labor_max := 0
  min_movers := 2
  floor_surcharge_percent := 0
  hvz_permit_cost := 0
  kitchen_assembly_per_meter := 0
  external_lift_cost_min := 0
  external_lift_cost_max := 0
  vat_rate := 0
  enable_regional := false
  regional_multipliers := [("default", 1)]
  enable_seasonal := false
  seasonal_peak_months := []
  seasonal_peak_multiplier := 1
  seasonal_offpeak_months := []
  seasonal_offpeak_multiplier := 1
  weekend_surcharge_percent := 0
  holiday_surcharge_percent := 0
  packing_materials_per_m3 := 0
  heavy_item_surcharges := []
  long_carry_per_10m := 0
  disposal_base_cost := 0
  disposal_per_m3 := 0
  insurance_basic_flat := 0
  insurance_premium_percent := 0
  insurance_premium_min := 0

/-- A minimal request: no distance, no floors, no services, no inventory. -/
def reqZero : MoveRequest where
  volume := 0
  distance_km := 0
  travel_time_hours := 0
  origin_floor := 0
  destination_floor := 0
  origin_has_elevator := false
  destination_has_elevator := false
  services := []
  origin_postal_code := none
  destination_postal_code := none
  moving_date := none
  inventory := []

/-- Test configuration for C1: 10 €/m³ flat, a negative holiday
surcharge percent, everything else off. -/
def cfgC1 : PricingConfig :=
  { cfgZero with base_rate_m3_min := 10, base_rate_m3_max := 10,
                 holiday_surcharge_percent := -1/2 }

/-- Test request for C1: 10 m³ moved on January 1st (a fixed holiday;
in 2026 it falls on a Thursday, weekday 3). -/
def reqC1 : MoveRequest :=
  { reqZero with volume := 10, moving_date := some ⟨1, 1, 3⟩ }

/-- The surcharge percent C1 resolves for reqC1 is the negative holiday
percent. -/
theorem cfgC1_pct : get_weekend_holiday_surcharge cfgC1 reqC1.moving_date = -1/2 := by
  simp [get_weekend_holiday_surcharge, reqC1, reqZero, cfgC1, cfgZero,
    is_german_holiday, GERMAN_FIXED_HOLIDAYS]

/-- Component sum of the C1 test input: 10 m³ × 10 €/m³ and a labor,
distance, floor, service and heavy-item cost of zero. -/
theorem cfgC1_components : net_components_min cfgC1 reqC1 = 100 := by
  simp [net_components_min, quote_man_hours, calculate_man_hours,
    calculate_distance_cost, calculate_floor_surcharge, calculate_services_cost,
    calculate_heavy_item_surcharges, cfgC1, cfgZero, reqC1, reqZero, max_def]
  norm_num

/-- The combined multiplier of the C1 test input is 1. -/
theorem cfgC1_mult : combined_mult cfgC1 reqC1 = 1 := by
  simp [combined_mult, get_regional_multiplier, get_seasonal_multiplier,
    cfgC1, cfgZero, reqC1, reqZero]

/-- C1 (counterexample): with a negative configured holiday surcharge
percent (-50%) and a holiday moving date, the engine skips the additive
step and reports a net of 100.00, not the 50.00 the claimed unconditional
multiplication by (1 + percent) would give: the claim "multiply by
(1 + weekend/holiday surcharge percent)" is false at this input. -/
theorem C1_counterexample :
    (generate_quote cfgC1 reqC1).min_price_netto
      ≠ round2 ((net_components_min cfgC1 reqC1 * combined_mult cfgC1 reqC1) *
          (1 + get_weekend_holiday_surcharge cfgC1 reqC1.moving_date)) := by
  have h1 : (generate_quote cfgC1 reqC1).min_price_netto = 100 := by
    rw [generate_quote_netto_min, cfgC1_components, cfgC1_mult, cfgC1_pct,
      if_neg (by norm_num)]
    rw [show ((100 : ℚ) * 1) * 1 = 100 by ring, round2_eval 100 10000 (by norm_num)]
    norm_num
  have h2 : round2 ((net_components_min cfgC1 reqC1 * combined_mult cfgC1 reqC1) *
      (1 + get_weekend_holiday_surcharge cfgC1 reqC1.moving_date)) = 50 := by
    rw [cfgC1_components, cfgC1_mult, cfgC1_pct,
      show ((100 : ℚ) * 1) * (1 + -1/2) = 50 by ring,
      round2_eval 50 5000 (by norm_num)]
    norm_num
  rw [h1, h2]
  norm_num

/-- C1 (amended): for every quote, the net min and max totals are
produced in the fixed order: sum the six cost components, multiply by
the combined factor (regional × seasonal), then — only when the
resolved weekend/holiday percent is positive — multiply by
(1 + percent), and round to 2 decimals exactly once, at the end.  When
the resolved percent is zero or negative the additive step is skipped
(equivalently, the factor is 1). -/
theorem C1_net_total_order (cfg : PricingConfig) (r : MoveRequest) :
    (generate_quote cfg r).min_price_netto
      = round2 ((net_components_min cfg r * combined_mult cfg r) *
          (if 0 < get_weekend_holiday_surcharge cfg r.moving_date
           then 1 + get_weekend_holiday_surcharge cfg r.moving_date else 1))
    ∧ (generate_quote cfg r).max_price_netto
      = round2 ((net_components_max cfg r * combined_mult cfg r) *
          (if 0 < get_weekend_holiday_surcharge cfg r.moving_date
           then 1 + get_weekend_holiday_surcharge cfg r.moving_date else 1)) :=
  ⟨generate_quote_netto_min cfg r, generate_quote_netto_max cfg r⟩

/-- Test configuration for C10: flat 10 €/m³, seasonal pricing enabled
with a below-1 peak multiplier (0.9 for May), and a negative holiday
surcharge percent. -/
def cfg10 : PricingConfig :=
  { cfgZero with base_rate_m3_min := 10, base_rate_m3_max := 10,
                 enable_seasonal := true, seasonal_peak_months := [5],
                 seasonal_peak_multiplier := 9/10,
                 holiday_surcharge_percent := -1/4 }

/-- Test request for C10: 10 m³ moved on May 1st (fixed holiday; a
Friday in 2026, weekday 4). -/
def req10 : MoveRequest :=
  { reqZero with volume := 10, moving_date := some ⟨5, 1, 4⟩ }

/-- The C10 test input resolves the negative holiday percent. -/
theorem cfg10_pct : get_weekend_holiday_surcharge cfg10 req10.moving_date = -1/4 := by
  simp [get_weekend_holiday_surcharge, req10, reqZero, cfg10, cfgZero,
    is_german_holiday, GERMAN_FIXED_HOLIDAYS]

/-- Component sum of the C10 test input. -/
theorem cfg10_components : net_components_min cfg10 req10 = 100 := by
  simp [net_components_min, quote_man_hours, calculate_man_hours,
    calculate_distance_cost, calculate_floor_surcharge, calculate_services_cost,
    calculate_heavy_item_surcharges, cfg10, cfgZero, req10, reqZero, max_def]
  norm_num

/-- Combined multiplier of the C10 test input: regional 1 × seasonal 0.9. -/
theorem cfg10_mult : combined_mult cfg10 req10 = 9/10 := by
  simp [combined_mult, get_regional_multiplier, get_seasonal_multiplier,
    cfg10, cfgZero, req10, reqZero]

/-- C10: when the resolved weekend/holiday percent is zero or negative,
the additive surcharge step is skipped entirely: the net totals are the
rounded post-multiplier amounts, with the combined regional × seasonal
factor applied unconditionally (no lower bound on that factor is
assumed, so a factor below 1 is applied as is); a negatively configured
surcharge therefore never changes the price. -/
theorem C10_nonpositive_surcharge_skipped (cfg : PricingConfig) (r : MoveRequest)
    (h : get_weekend_holiday_surcharge cfg r.moving_date ≤ 0) :
    (generate_quote cfg r).min_price_netto
      = round2 (net_components_min cfg r * combined_mult cfg r)
    ∧ (generate_quote cfg r).max_price_netto
      = round2 (net_components_max cfg r * combined_mult cfg r) := by
  have h1 := generate_quote_netto_min cfg r
  have h2 := generate_quote_netto_max cfg r
  rw [if_neg (by linarith), mul_one] at h1 h2
  exact ⟨h1, h2⟩

/-- C10 witness: a concrete input with a −25% holiday surcharge and a
0.9 combined multiplier; the surcharge is skipped while the below-1
multiplier is applied, giving a net of 90.00 from a 100 component sum. -/
theorem C10_witness :
    get_weekend_holiday_surcharge cfg10 req10.moving_date ≤ 0
    ∧ combined_mult cfg10 req10 < 1
    ∧ (generate_quote cfg10 req10).min_price_netto = 90 := by
  have hp : get_weekend_holiday_surcharge cfg10 req10.moving_date ≤ 0 := by
    rw [cfg10_pct]
    norm_num
  refine ⟨hp, by rw [cfg10_mult]; norm_num, ?_⟩
  have h := (C10_nonpositive_surcharge_skipped cfg10 req10 hp).1
  rw [h, cfg10_components, cfg10_mult, show (100 : ℚ) * (9/10) = 90 by ring,
    round2_eval 90 9000 (by norm_num)]
  norm_num

/-- The reported minimum VAT amount is the rounded product of the
reported net minimum and the VAT rate (line 369). -/
theorem generate_quote_vat_min (cfg : PricingConfig) (r : MoveRequest) :
    (generate_quote cfg r).vat_amount_min
      = round2 ((generate_quote cfg r).min_price_netto * cfg.vat_rate) := rfl

/-- The reported maximum VAT amount (line 370). -/
theorem generate_quote_vat_max (cfg : PricingConfig) (r : MoveRequest) :
    (generate_quote cfg r).vat_amount_max
      = round2 ((generate_quote cfg r).max_price_netto * cfg.vat_rate) := rfl

/-- The reported gross minimum is the rounded sum of net and VAT
(line 371). -/
theorem generate_quote_brutto_min (cfg : PricingConfig) (r : MoveRequest) :
    (generate_quote cfg r).min_price
      = round2 ((generate_quote cfg r).min_price_netto
          + (generate_quote cfg r).vat_amount_min) := rfl

/-- The reported gross maximum (line 372). -/
theorem generate_quote_brutto_max (cfg : PricingConfig) (r : MoveRequest) :
    (generate_quote cfg r).max_price
      = round2 ((generate_quote cfg r).max_price_netto
          + (generate_quote cfg r).vat_amount_max) := rfl

/-! ## C3: input validation -/

/-- Test configuration for C3: flat 10 €/m³. -/
def cfgC3 : PricingConfig :=
  { cfgZero with base_rate_m3_min := 10, base_rate_m3_max := 10 }

/-- Test request for C3: a negative volume of −5 m³. -/
def reqC3 : MoveRequest := { reqZero with volume := -5 }

/-- Component sum of the C3 test input: −5 m³ × 10 €/m³ = −50, labor
still priced at the 4-hour floor times a zero rate. -/
theorem cfgC3_components : net_components_min cfgC3 reqC3 = -50 := by
  simp [net_components_min, quote_man_hours, calculate_man_hours,
    calculate_distance_cost, calculate_floor_surcharge, calculate_services_cost,
    calculate_heavy_item_surcharges, cfgC3, cfgZero, reqC3, reqZero, max_def]
  norm_num

/-- Combined multiplier of the C3 test input is 1. -/
theorem cfgC3_mult : combined_mult cfgC3 reqC3 = 1 := by
  simp [combined_mult, get_regional_multiplier, get_seasonal_multiplier,
    cfgC3, cfgZero, reqC3, reqZero]

/-- C3 (counterexample): the engine contains no validation: called with
a negative volume of −5 m³ it raises nothing and returns a complete
quote with net and gross minimum −50.00 — not the claimed
ValidationError-before-any-computation with no quote produced. -/
theorem C3_counterexample :
    reqC3.volume < 0
    ∧ (generate_quote cfgC3 reqC3).min_price_netto = -50
    ∧ (generate_quote cfgC3 reqC3).min_price = -50 := by
  have hpct : get_weekend_holiday_surcharge cfgC3 reqC3.moving_date = 0 := rfl
  have hnet : (generate_quote cfgC3 reqC3).min_price_netto = -50 := by
    rw [generate_quote_netto_min, cfgC3_components, cfgC3_mult, hpct,
      if_neg (by norm_num), show ((-50 : ℚ) * 1) * 1 = -50 by ring,
      round2_eval (-50) (-5000) (by norm_num)]
    norm_num
  have hvat : (generate_quote cfgC3 reqC3).vat_amount_min = 0 := by
    rw [generate_quote_vat_min, hnet]
    have : (-50 : ℚ) * cfgC3.vat_rate = 0 := by
      simp [cfgC3, cfgZero]
    rw [this, round2_eval 0 0 (by norm_num)]
    norm_num
  refine ⟨by simp [reqC3, reqZero], hnet, ?_⟩
  rw [generate_quote_brutto_min, hnet, hvat,
    show (-50 : ℚ) + 0 = -50 by ring, round2_eval (-50) (-5000) (by norm_num)]
  norm_num

/-- C3 (amended): the engine performs no input validation and has no
error path: a request with negative volume, distance or floor is not
rejected — it flows through the same arithmetic as any other request
and yields a complete quote (its net totals given by the standard
pipeline formula). -/
theorem C3_no_validation (cfg : PricingConfig) (r : MoveRequest)
    (_h : r.volume < 0 ∨ r.distance_km < 0 ∨ r.origin_floor < 0 ∨ r.destination_floor < 0) :
    (generate_quote cfg r).min_price_netto
      = round2 ((net_components_min cfg r * combined_mult cfg r) *
          (if 0 < get_weekend_holiday_surcharge cfg r.moving_date
           then 1 + get_weekend_holiday_surcharge cfg r.moving_date else 1))
    ∧ (generate_quote cfg r).max_price_netto
      = round2 ((net_components_max cfg r * combined_mult cfg r) *
          (if 0 < get_weekend_holiday_surcharge cfg r.moving_date
           then 1 + get_weekend_holiday_surcharge cfg r.moving_date else 1)) :=
  ⟨generate_quote_netto_min cfg r, generate_quote_netto_max cfg r⟩

/-- C3 witness: the amended statement at the concrete negative-volume
input. -/
theorem C3_witness :
    reqC3.volume < 0
    ∧ (generate_quote cfgC3 reqC3).min_price_netto
        = round2 ((net_components_min cfgC3 reqC3 * combined_mult cfgC3 reqC3) *
            (if 0 < get_weekend_holiday_surcharge cfgC3 reqC3.moving_date
             then 1 + get_weekend_holiday_surcharge cfgC3 reqC3.moving_date else 1)) := by
  have hv : reqC3.volume < 0 := by
    simp [reqC3, reqZero]
  exact ⟨hv, (C3_no_validation cfgC3 reqC3 (Or.inl hv)).1⟩

/-! ## C4: regional multiplier -/

/-- Looking up a key with that same key as fallback default collapses to
a single defaulted lookup (`d.get(k, d.get(k, x)) = d.get(k, x)`). -/
theorem dget_default_collapse (m : List (String × ℚ)) (k : String) (x : ℚ) :
    dget m k (dget m k x) = dget m k x := by
  unfold dget
  cases m.find? (fun p => p.1 == k) <;> simp

/-- Test configuration for C4: regional pricing enabled and a multiplier
table whose "default" entry is 1.5. -/
def cfgC4 : PricingConfig :=
  { cfgZero with enable_regional := true, regional_multipliers := [("default", 3/2)] }

/-- C4 (counterexample): with regional pricing enabled and a "default"
multiplier of 1.5, an unset postal code yields multiplier 1, not the
configured default-region multiplier — the claimed "unset postal code
uses the default region multiplier" is false. -/
theorem C4_counterexample :
    cfgC4.enable_regional = true
    ∧ dget cfgC4.regional_multipliers "default" 1 = 3/2
    ∧ get_regional_multiplier cfgC4 none = 1
    ∧ get_regional_multiplier cfgC4 none ≠ dget cfgC4.regional_multipliers "default" 1 := by
  refine ⟨rfl, ?_, ?_, ?_⟩
  all_goals simp [get_regional_multiplier, dget, cfgC4, cfgZero]
  all_goals norm_num

/-- C4 (amended): with regional pricing disabled every endpoint gets
multiplier 1; enabled, an unset or empty postal code gets multiplier 1
(not the default-region multiplier), while a postal code whose
2-character prefix is not in the region table gets the configured
"default" region multiplier; the quote uses the larger of the origin
and destination multipliers. -/
theorem C4_regional_multiplier (cfg : PricingConfig) (r : MoveRequest) :
    (cfg.enable_regional = false → ∀ p, get_regional_multiplier cfg p = 1)
    ∧ (get_regional_multiplier cfg none = 1 ∧ get_regional_multiplier cfg (some "") = 1)
    ∧ (cfg.enable_regional = true → ∀ s : String, s ≠ "" →
        region_of_postal_code (s.take 2) = "default" →
        get_regional_multiplier cfg (some s) = dget cfg.regional_multipliers "default" 1)
    ∧ (generate_quote cfg r).mult_regional
        = max (get_regional_multiplier cfg r.origin_postal_code)
              (get_regional_multiplier cfg r.destination_postal_code) := by
  refine ⟨fun h p => by simp [get_regional_multiplier, h], ⟨?_, ?_⟩, fun h s hs hr => ?_, rfl⟩
  · unfold get_regional_multiplier
    split_ifs <;> rfl
  · unfold get_regional_multiplier
    split_ifs <;> rfl
  · have hval : get_regional_multiplier cfg (some s)
        = dget cfg.regional_multipliers (region_of_postal_code (s.take 2))
            (dget cfg.regional_multipliers "default" 1) := by
      unfold get_regional_multiplier
      rw [if_neg (by simp [h])]
      simp [hs]
    rw [hval, hr, dget_default_collapse]

/-- C4 witness: postal code "04109" (prefix "04", not in the region
table) with the default-region multiplier 1.5 resolves to 1.5. -/
theorem C4_witness :
    cfgC4.enable_regional = true
    ∧ region_of_postal_code ("04109".take 2) = "default"
    ∧ get_regional_multiplier cfgC4 (some "04109") = 3/2 := by
  refine ⟨rfl, by decide, ?_⟩
  have h := (C4_regional_multiplier cfgC4 reqZero).2.2.1 rfl "04109"
    (by decide) (by decide)
  rw [h]
  simp [dget, cfgC4, cfgZero]

/-! ## C5: explicit volume or inventory -/

/-- The running-sum loop of `calculate_volume` equals the sum of
volume × quantity over the list. -/
theorem calculate_volume_eq_sum (inv : List InventoryItem) :
    calculate_volume inv = (inv.map (fun i => i.volume_m3 * (i.quantity : ℚ))).sum := by
  unfold calculate_volume
  have h : ∀ (l : List InventoryItem) (acc : ℚ),
      l.foldl (fun acc item => acc + item.volume_m3 * (item.quantity : ℚ)) acc
        = acc + (l.map (fun i => i.volume_m3 * (i.quantity : ℚ))).sum := by
    intro l
    induction l with
    | nil => intro acc; simp
    | cons i t ih =>
      intro acc
      simp [List.foldl_cons, ih, add_assoc]
  simpa using h inv 0

/-- C5: the engine prices from either source of volume.  Supplying only
an inventory (volume obtained through `calculate_volume`, the composition
the submit endpoint uses) yields exactly the quote priced on the
aggregated volume Σ(item.volume × item.quantity); supplying only an
explicit volume with no inventory yields a quote priced on that volume
with a zero heavy-item surcharge. -/
theorem C5_volume_or_inventory (cfg : PricingConfig) (r : MoveRequest)
    (inv : List InventoryItem) (v : ℚ) :
    calculate_volume inv = (inv.map (fun i => i.volume_m3 * (i.quantity : ℚ))).sum
    ∧ generate_quote cfg { r with volume := calculate_volume inv, inventory := inv }
        = generate_quote cfg
            { r with volume := (inv.map (fun i => i.volume_m3 * (i.quantity : ℚ))).sum,
                     inventory := inv }
    ∧ (generate_quote cfg { r with volume := v, inventory := [] }).volume_m3 = round2 v
    ∧ (generate_quote cfg { r with volume := v, inventory := [] }).heavy_item_surcharge = 0 := by
  refine ⟨calculate_volume_eq_sum inv, ?_, rfl, ?_⟩
  · exact congrArg
      (fun x => generate_quote cfg { r with volume := x, inventory := inv })
      (calculate_volume_eq_sum inv)
  · show round2 (calculate_heavy_item_surcharges cfg []) = 0
    rw [show calculate_heavy_item_surcharges cfg [] = 0 from rfl,
      round2_eval 0 0 (by norm_num)]
    norm_num

/-! ## C6: crew size -/

/-- C6: crew size is the volume step function 2/3/4 (thresholds 20 and
45) raised to the configured minimum, and it depends on nothing but the
volume and `min_movers`: two configurations agreeing on `min_movers`
produce the same crew for the same volume, whatever their other rates,
and no other request field enters. -/
theorem C6_crew_size (cfg : PricingConfig) (v : ℚ) (_h : 0 ≤ v) :
    (v < 20 → determine_crew_size cfg v = max 2 cfg.min_movers)
    ∧ (20 ≤ v → v < 45 → determine_crew_size cfg v = max 3 cfg.min_movers)
    ∧ (45 ≤ v → determine_crew_size cfg v = max 4 cfg.min_movers)
    ∧ (∀ cfg2 : PricingConfig, cfg.min_movers = cfg2.min_movers →
        determine_crew_size cfg v = determine_crew_size cfg2 v) := by
  unfold determine_crew_size
  refine ⟨fun h1 => by rw [if_pos h1],
    fun h1 h2 => by rw [if_neg (by linarith), if_pos h2],
    fun h1 => by rw [if_neg (by linarith), if_neg (by linarith)],
    fun cfg2 hm => by rw [hm]⟩

/-- Test configuration for C6: a configured minimum of 4 movers. -/
def cfgC6 : PricingConfig := { cfgZero with min_movers := 4 }

/-- C6 witness: volume 19 computes the 2-mover step, but a configured
minimum of 4 movers forces a crew of 4; with the default minimum of 2
the same volume keeps a crew of 2, and volume 45 steps to 4. -/
theorem C6_witness :
    (0 : ℚ) ≤ 19
    ∧ determine_crew_size cfgC6 19 = 4
    ∧ determine_crew_size cfgZero 19 = 2
    ∧ determine_crew_size cfgZero 45 = 4 := by
  refine ⟨by norm_num, ?_, ?_, ?_⟩
  · have h := (C6_crew_size cfgC6 19 (by norm_num)).1 (by norm_num)
    rw [h]
    simp [cfgC6, cfgZero]
  · have h := (C6_crew_size cfgZero 19 (by norm_num)).1 (by norm_num)
    rw [h]
    simp [cfgZero]
  · have h := (C6_crew_size cfgZero 45 (by norm_num)).2.2.1 (by norm_num)
    rw [h]
    simp [cfgZero]

/-! ## C7: man-hours -/

/-- C7: total man-hours is max(volume × 0.12 + stairs + service, 4)
where stairs adds floor × volume × 0.02 per elevator-less endpoint with
a positive floor, service adds volume × 0.15 for disassembly and
volume × 0.25 for packing, the 4-hour floor is applied once to the
grand total, and an endpoint with an elevator contributes no stairs
effort whatever its floor. -/
theorem C7_man_hours (v : ℚ) (of df : ℤ) (oe de dis pack : Bool) (_h : 0 ≤ v) :
    calculate_man_hours v of df oe de dis pack
      = max (v * (0.12 : ℚ)
          + ((if oe = false ∧ 0 < of then (of : ℚ) * v * (0.02 : ℚ) else 0)
             + (if de = false ∧ 0 < df then (df : ℚ) * v * (0.02 : ℚ) else 0))
          + ((if dis then v * (0.15 : ℚ) else 0) + (if pack then v * (0.25 : ℚ) else 0))) 4
    ∧ (∀ f1 f2 : ℤ, calculate_man_hours v f1 df true de dis pack
        = calculate_man_hours v f2 df true de dis pack)
    ∧ (∀ f1 f2 : ℤ, calculate_man_hours v of f1 oe true dis pack
        = calculate_man_hours v of f2 oe true dis pack) := by
  refine ⟨rfl, ?_, ?_⟩ <;> intro f1 f2 <;> simp [calculate_man_hours]

/-- C7 witness: 40 m³ with no stairs or extras gives 4.8 man-hours;
10 m³ clamps to the 4-hour floor; a 7th-floor origin with an elevator
adds nothing. -/
theorem C7_witness :
    (0 : ℚ) ≤ 40
    ∧ calculate_man_hours 40 0 0 false false false false = 24/5
    ∧ calculate_man_hours 10 0 0 false false false false = 4
    ∧ calculate_man_hours 40 7 0 true false false false = 24/5 := by
  refine ⟨by norm_num, ?_, ?_, ?_⟩
  · have h := (C7_man_hours 40 0 0 false false false false (by norm_num)).1
    rw [h]
    norm_num [max_def]
  · have h := (C7_man_hours 10 0 0 false false false false (by norm_num)).1
    rw [h]
    norm_num [max_def]
  · have h := (C7_man_hours 40 7 0 true false false false (by norm_num)).2.1 7 0
    rw [h]
    have h2 := (C7_man_hours 40 0 0 true false false false (by norm_num)).1
    rw [h2]
    norm_num [max_def]

/-! ## C8: weekend/holiday surcharge precedence -/

/-- C8: the surcharge percent resolves with holiday precedence — a fixed
holiday returns the holiday percent whatever the weekday (weekday or
weekend), otherwise a Saturday/Sunday returns the weekend percent,
otherwise 0; and no date returns 0. -/
theorem C8_surcharge_precedence (cfg : PricingConfig) (d : MoveDate) :
    (is_german_holiday d = true →
      get_weekend_holiday_surcharge cfg (some d) = cfg.holiday_surcharge_percent)
    ∧ (is_german_holiday d = false → is_weekend d = true →
      get_weekend_holiday_surcharge cfg (some d) = cfg.weekend_surcharge_percent)
    ∧ (is_german_holiday d = false → is_weekend d = false →
      get_weekend_holiday_surcharge cfg (some d) = 0)
    ∧ get_weekend_holiday_surcharge cfg none = 0 := by
  refine ⟨fun h => ?_, fun h1 h2 => ?_, fun h1 h2 => ?_, rfl⟩ <;>
    simp [get_weekend_holiday_surcharge, *]

/-- Test configuration for C8: 30% holiday and 10% weekend surcharge. -/
def cfgC8 : PricingConfig :=
  { cfgZero with holiday_surcharge_percent := 3/10,
                 weekend_surcharge_percent := 1/10 }

/-- C8 witness: May 1st 2026 is a fixed holiday falling on a Friday
(weekday 4, not a weekend); the holiday percent is returned, not 0 and
not the weekend percent. -/
theorem C8_witness :
    is_german_holiday ⟨5, 1, 4⟩ = true
    ∧ is_weekend ⟨5, 1, 4⟩ = false
    ∧ get_weekend_holiday_surcharge cfgC8 (some ⟨5, 1, 4⟩) = 3/10 := by
  refine ⟨by decide, by decide, ?_⟩
  have h := (C8_surcharge_precedence cfgC8 ⟨5, 1, 4⟩).1 (by decide)
  rw [h]
  simp [cfgC8, cfgZero]

/-! ## C9: long-carry service -/

/-- An enabled long-carry service with the given carry distance in
meters. -/
def longCarryService (d : ℚ) : Service :=
  ⟨"long_carry", true, [("carry_distance_m", d)]⟩

/-- C9: the long-carry cost is ceiling(max(distance − 10, 0) / 10)
billable units times the per-10m rate (identical min and max); in
particular 10 m is free, and 25 m and 30 m both bill 2 units and cost
the same. -/
theorem C9_long_carry (cfg : PricingConfig) (d v : ℚ) (_h : 0 ≤ d) :
    calculate_services_cost cfg [longCarryService d] v
      = ((⌈max (d - 10) 0 / 10⌉ : ℚ) * cfg.long_carry_per_10m,
         (⌈max (d - 10) 0 / 10⌉ : ℚ) * cfg.long_carry_per_10m)
    ∧ calculate_services_cost cfg [longCarryService 10] v = (0, 0)
    ∧ (⌈max ((25 : ℚ) - 10) 0 / 10⌉ : ℤ) = 2
    ∧ (⌈max ((30 : ℚ) - 10) 0 / 10⌉ : ℤ) = 2
    ∧ calculate_services_cost cfg [longCarryService 25] v
        = calculate_services_cost cfg [longCarryService 30] v := by
  have heval : ∀ x : ℚ, calculate_services_cost cfg [longCarryService x] v
      = ((⌈max (x - 10) 0 / 10⌉ : ℚ) * cfg.long_carry_per_10m,
         (⌈max (x - 10) 0 / 10⌉ : ℚ) * cfg.long_carry_per_10m) := by
    intro x
    simp [calculate_services_cost, service_cost_step, longCarryService, mget, dget]
  have h25 : (⌈max ((25 : ℚ) - 10) 0 / 10⌉ : ℤ) = 2 := by
    rw [show max ((25 : ℚ) - 10) 0 = 15 by norm_num [max_def]]
    exact ceil_eval (15 / 10) 2 (by norm_num) (by norm_num)
  have h30 : (⌈max ((30 : ℚ) - 10) 0 / 10⌉ : ℤ) = 2 := by
    rw [show max ((30 : ℚ) - 10) 0 = 20 by norm_num [max_def]]
    exact ceil_eval (20 / 10) 2 (by norm_num) (by norm_num)
  refine ⟨heval d, ?_, h25, h30, ?_⟩
  · rw [heval 10, show max ((10 : ℚ) - 10) 0 = 0 by norm_num [max_def]]
    norm_num
  · rw [heval 25, heval 30, h25, h30]

/-- Test configuration for C9: 40 € per started 10 m of long carry. -/
def cfgC9 : PricingConfig := { cfgZero with long_carry_per_10m := 40 }

/-- C9 witness: a 25 m carry is 2 billable units at 40 €, i.e. 80 €
added to both bounds. -/
theorem C9_witness :
    (0 : ℚ) ≤ 25
    ∧ calculate_services_cost cfgC9 [longCarryService 25] 0 = (80, 80) := by
  refine ⟨by norm_num, ?_⟩
  have h := C9_long_carry cfgC9 25 0 (by norm_num)
  rw [h.1, h.2.2.1]
  have : cfgC9.long_carry_per_10m = 40 := rfl
  rw [this]
  norm_num

/-! ## C2: ordering and exactness invariants -/

/-- Each service-loop step adds a min increment no larger than the max
increment (all service types add equal amounts except the external
lift, which needs its configured min ≤ max). -/
theorem service_cost_step_le (cfg : PricingConfig) (v : ℚ)
    (hl : cfg.external_lift_cost_min ≤ cfg.external_lift_cost_max)
    (acc : ℚ × ℚ) (hacc : acc.1 ≤ acc.2) (s : Service) :
    (service_cost_step cfg v acc s).1 ≤ (service_cost_step cfg v acc s).2 := by
  unfold service_cost_step
  split_ifs <;> (try dsimp only) <;> linarith

/-- The services cost keeps min ≤ max. -/
theorem services_cost_le (cfg : PricingConfig) (v : ℚ)
    (hl : cfg.external_lift_cost_min ≤ cfg.external_lift_cost_max)
    (services : List Service) :
    (calculate_services_cost cfg services v).1 ≤ (calculate_services_cost cfg services v).2 := by
  unfold calculate_services_cost
  have key : ∀ (l : List Service) (acc : ℚ × ℚ), acc.1 ≤ acc.2 →
      (l.foldl (service_cost_step cfg v) acc).1 ≤ (l.foldl (service_cost_step cfg v) acc).2 := by
    intro l
    induction l with
    | nil => intro acc h; simpa using h
    | cons s t ih =>
      intro acc h
      simp only [List.foldl_cons]
      exact ih _ (service_cost_step_le cfg v hl acc h s)
  exact key services (0, 0) (le_refl 0)

/-- With non-negative distance rates and threshold, the tiered base cost
is non-negative, so the −10% bound is below the +10% bound. -/
theorem distance_cost_le (cfg : PricingConfig)
    (hn : 0 ≤ cfg.rate_km_near) (hf : 0 ≤ cfg.rate_km_far) (ht : 0 ≤ cfg.km_threshold)
    (d : ℚ) (hd : 0 ≤ d) :
    (calculate_distance_cost cfg d).1 ≤ (calculate_distance_cost cfg d).2 := by
  unfold calculate_distance_cost
  have hbase : 0 ≤ (if d ≤ cfg.km_threshold then d * cfg.rate_km_near
      else cfg.km_threshold * cfg.rate_km_near + (d - cfg.km_threshold) * cfg.rate_km_far) := by
    split_ifs with h
    · exact mul_nonneg hd hn
    · have hlt : cfg.km_threshold < d := lt_of_not_le h
      have h1 : 0 ≤ cfg.km_threshold * cfg.rate_km_near := mul_nonneg ht hn
      have h2 : 0 ≤ (d - cfg.km_threshold) * cfg.rate_km_far :=
        mul_nonneg (by linarith) hf
      linarith
  nlinarith [hbase]

/-- With a non-negative surcharge percent and ordered base costs, the
floor surcharge keeps min ≤ max. -/
theorem floor_surcharge_le (cfg : PricingConfig)
    (hp : 0 ≤ cfg.floor_surcharge_percent) {b1 b2 : ℚ} (hb : b1 ≤ b2)
    (of df : ℤ) (oe de : Bool) :
    (calculate_floor_surcharge cfg b1 b2 of df oe de).1
      ≤ (calculate_floor_surcharge cfg b1 b2 of df oe de).2 := by
  have t1 : (0 : ℚ) ≤ (if oe = false ∧ 2 < of then ((of - 2 : ℤ) : ℚ) else 0) := by
    split_ifs with h
    · exact_mod_cast (show (0 : ℤ) ≤ of - 2 by omega)
    · exact le_refl 0
  have t2 : (0 : ℚ) ≤ (if de = false ∧ 2 < df then ((df - 2 : ℤ) : ℚ) else 0) := by
    split_ifs with h
    · exact_mod_cast (show (0 : ℤ) ≤ df - 2 by omega)
    · exact le_refl 0
  set x := (if oe = false ∧ 2 < of then ((of - 2 : ℤ) : ℚ) else 0) with hx
  set y := (if de = false ∧ 2 < df then ((df - 2 : ℤ) : ℚ) else 0) with hy
  show (if 0 < x + y then
      (b1 * cfg.floor_surcharge_percent * (x + y),
       b2 * cfg.floor_surcharge_percent * (x + y))
    else ((0 : ℚ), (0 : ℚ))).1
    ≤ (if 0 < x + y then
      (b1 * cfg.floor_surcharge_percent * (x + y),
       b2 * cfg.floor_surcharge_percent * (x + y))
    else ((0 : ℚ), (0 : ℚ))).2
  by_cases h : 0 < x + y
  · rw [if_pos h]
    dsimp only
    rw [mul_assoc, mul_assoc]
    exact mul_le_mul_of_nonneg_right hb (mul_nonneg hp (by linarith))
  · rw [if_neg h]

/-- Man-hours are always at least the 4-hour floor, hence non-negative. -/
theorem quote_man_hours_nonneg (r : MoveRequest) : (0 : ℚ) ≤ quote_man_hours r := by
  unfold quote_man_hours calculate_man_hours
  exact le_trans (by norm_num) (le_max_right _ 4)

/-- Under ordered rates and non-negative inputs, the min component sum
is below the max component sum. -/
theorem net_components_le (cfg : PricingConfig) (r : MoveRequest)
    (hv : 0 ≤ r.volume) (hd : 0 ≤ r.distance_km)
    (hb : cfg.base_rate_m3_min ≤ cfg.base_rate_m3_max)
    (hh : cfg.hourly_labor_min ≤ cfg.hourly_labor_max)
    (hl : cfg.external_lift_cost_min ≤ cfg.external_lift_cost_max)
    (hkn : 0 ≤ cfg.rate_km_near) (hkf : 0 ≤ cfg.rate_km_far) (hkt : 0 ≤ cfg.km_threshold)
    (hfp : 0 ≤ cfg.floor_surcharge_percent) :
    net_components_min cfg r ≤ net_components_max cfg r := by
  have hmh := quote_man_hours_nonneg r
  have hvol : r.volume * cfg.base_rate_m3_min ≤ r.volume * cfg.base_rate_m3_max :=
    mul_le_mul_of_nonneg_left hb hv
  have hlab : quote_man_hours r * cfg.hourly_labor_min
      ≤ quote_man_hours r * cfg.hourly_labor_max :=
    mul_le_mul_of_nonneg_left hh hmh
  have hdist := distance_cost_le cfg hkn hkf hkt r.distance_km hd
  have hflo := floor_surcharge_le cfg hfp (add_le_add hvol hlab)
    r.origin_floor r.destination_floor r.origin_has_elevator r.destination_has_elevator
  have hserv := services_cost_le cfg r.volume hl r.services
  unfold net_components_min net_components_max
  linarith

/-- The reported net and VAT minimums are both already rounded to 2
decimals, so their rounded sum — the reported gross minimum — equals
the plain sum exactly. -/
theorem net_add_vat_min (cfg : PricingConfig) (r : MoveRequest) :
    (generate_quote cfg r).min_price_netto + (generate_quote cfg r).vat_amount_min
      = (generate_quote cfg r).min_price := by
  obtain ⟨X, hX⟩ : ∃ X, (generate_quote cfg r).min_price_netto = round2 X :=
    ⟨_, generate_quote_netto_min cfg r⟩
  rw [generate_quote_brutto_min, generate_quote_vat_min, hX, round2_add_round2]

/-- The exact gross identity on the max side. -/
theorem net_add_vat_max (cfg : PricingConfig) (r : MoveRequest) :
    (generate_quote cfg r).max_price_netto + (generate_quote cfg r).vat_amount_max
      = (generate_quote cfg r).max_price := by
  obtain ⟨X, hX⟩ : ∃ X, (generate_quote cfg r).max_price_netto = round2 X :=
    ⟨_, generate_quote_netto_max cfg r⟩
  rw [generate_quote_brutto_max, generate_quote_vat_max, hX, round2_add_round2]

/-- C2 (amended): for non-negative request inputs and a configuration
whose min rates do not exceed the max rates AND whose distance rates,
threshold, floor-surcharge percent, VAT rate and resolved
regional/seasonal multipliers are non-negative, the quote satisfies
min_price ≤ max_price, net min ≤ net max, and the exact gross
identities net + vat = gross on both sides. -/
theorem C2_invariants (cfg : PricingConfig) (r : MoveRequest)
    (hv : 0 ≤ r.volume) (hd : 0 ≤ r.distance_km)
    (_hof : 0 ≤ r.origin_floor) (_hdf : 0 ≤ r.destination_floor)
    (_ht : 0 ≤ r.travel_time_hours)
    (hb : cfg.base_rate_m3_min ≤ cfg.base_rate_m3_max)
    (hh : cfg.hourly_labor_min ≤ cfg.hourly_labor_max)
    (hl : cfg.external_lift_cost_min ≤ cfg.external_lift_cost_max)
    (hkn : 0 ≤ cfg.rate_km_near) (hkf : 0 ≤ cfg.rate_km_far) (hkt : 0 ≤ cfg.km_threshold)
    (hfp : 0 ≤ cfg.floor_surcharge_percent) (hvr : 0 ≤ cfg.vat_rate)
    (hro : 0 ≤ get_regional_multiplier cfg r.origin_postal_code)
    (_hrd : 0 ≤ get_regional_multiplier cfg r.destination_postal_code)
    (hs : 0 ≤ get_seasonal_multiplier cfg r.moving_date) :
    (generate_quote cfg r).min_price ≤ (generate_quote cfg r).max_price
    ∧ (generate_quote cfg r).min_price_netto ≤ (generate_quote cfg r).max_price_netto
    ∧ (generate_quote cfg r).min_price_netto + (generate_quote cfg r).vat_amount_min
        = (generate_quote cfg r).min_price
    ∧ (generate_quote cfg r).max_price_netto + (generate_quote cfg r).vat_amount_max
        = (generate_quote cfg r).max_price := by
  have hS := net_components_le cfg r hv hd hb hh hl hkn hkf hkt hfp
  have hM : 0 ≤ combined_mult cfg r :=
    mul_nonneg (le_trans hro (le_max_left _ _)) hs
  have h1 : net_components_min cfg r * combined_mult cfg r
      ≤ net_components_max cfg r * combined_mult cfg r :=
    mul_le_mul_of_nonneg_right hS hM
  have hfac : 0 ≤ (if 0 < get_weekend_holiday_surcharge cfg r.moving_date
      then 1 + get_weekend_holiday_surcharge cfg r.moving_date else 1) := by
    split_ifs with h
    · linarith
    · norm_num
  have hnet : (generate_quote cfg r).min_price_netto
      ≤ (generate_quote cfg r).max_price_netto := by
    rw [generate_quote_netto_min, generate_quote_netto_max]
    exact round2_mono (mul_le_mul_of_nonneg_right h1 hfac)
  have hvat : (generate_quote cfg r).vat_amount_min
      ≤ (generate_quote cfg r).vat_amount_max := by
    rw [generate_quote_vat_min, generate_quote_vat_max]
    exact round2_mono (mul_le_mul_of_nonneg_right hnet hvr)
  refine ⟨?_, hnet, net_add_vat_min cfg r, net_add_vat_max cfg r⟩
  rw [← net_add_vat_min cfg r, ← net_add_vat_max cfg r]
  exact add_le_add hnet hvat

/-- Test configuration for C2 (counterexample): a negative near-distance
rate of −1 €/km, 19% VAT, all min/max rate pairs degenerate (0 ≤ 0,
lift 0 ≤ 0). -/
def cfgC2x : PricingConfig :=
  { cfgZero with rate_km_near := -1, km_threshold := 50, vat_rate := 19/100 }

/-- Test request for C2 (counterexample): 0 m³ over 10 km. -/
def reqC2x : MoveRequest := { reqZero with distance_km := 10 }

/-- Component sums of the C2 counterexample input: base cost −10, so the
±10% spread flips the bounds to min −9 and max −11. -/
theorem cfgC2x_components :
    net_components_min cfgC2x reqC2x = -9 ∧ net_components_max cfgC2x reqC2x = -11 := by
  constructor <;>
    simp [net_components_min, net_components_max, quote_man_hours,
      calculate_man_hours, calculate_distance_cost, calculate_floor_surcharge,
      calculate_services_cost, calculate_heavy_item_surcharges,
      cfgC2x, cfgZero, reqC2x, reqZero, max_def] <;>
    norm_num

/-- Combined multiplier of the C2 counterexample input is 1. -/
theorem cfgC2x_mult : combined_mult cfgC2x reqC2x = 1 := by
  simp [combined_mult, get_regional_multiplier, get_seasonal_multiplier,
    cfgC2x, cfgZero, reqC2x, reqZero]

/-- C2 (counterexample): the claimed validity conditions hold — all
numeric inputs non-negative, every configured min rate ≤ its max rate —
and yet max_price < min_price: a negative configured per-km rate (which
the claimed conditions do not exclude) makes the distance base cost
negative and the ±10% spread flips the bounds (min −9 > max −11),
giving gross bounds min −10.71 > max −13.09. -/
theorem C2_counterexample :
    0 ≤ reqC2x.volume ∧ 0 ≤ reqC2x.distance_km
    ∧ 0 ≤ reqC2x.origin_floor ∧ 0 ≤ reqC2x.destination_floor
    ∧ 0 ≤ reqC2x.travel_time_hours
    ∧ cfgC2x.base_rate_m3_min ≤ cfgC2x.base_rate_m3_max
    ∧ cfgC2x.hourly_labor_min ≤ cfgC2x.hourly_labor_max
    ∧ cfgC2x.external_lift_cost_min ≤ cfgC2x.external_lift_cost_max
    ∧ (generate_quote cfgC2x reqC2x).max_price < (generate_quote cfgC2x reqC2x).min_price := by
  have hpct : get_weekend_holiday_surcharge cfgC2x reqC2x.moving_date = 0 := rfl
  have hvr : cfgC2x.vat_rate = 19/100 := rfl
  have hnetmin : (generate_quote cfgC2x reqC2x).min_price_netto = -9 := by
    rw [generate_quote_netto_min, cfgC2x_components.1, cfgC2x_mult, hpct,
      if_neg (by norm_num), mul_one, mul_one, round2_eval (-9) (-900) (by norm_num)]
    norm_num
  have hnetmax : (generate_quote cfgC2x reqC2x).max_price_netto = -11 := by
    rw [generate_quote_netto_max, cfgC2x_components.2, cfgC2x_mult, hpct,
      if_neg (by norm_num), mul_one, mul_one, round2_eval (-11) (-1100) (by norm_num)]
    norm_num
  have hvatmin : (generate_quote cfgC2x reqC2x).vat_amount_min = -171/100 := by
    rw [generate_quote_vat_min, hnetmin, hvr,
      round2_eval ((-9 : ℚ) * (19/100)) (-171) (by norm_num)]
    norm_num
  have hvatmax : (generate_quote cfgC2x reqC2x).vat_amount_max = -209/100 := by
    rw [generate_quote_vat_max, hnetmax, hvr,
      round2_eval ((-11 : ℚ) * (19/100)) (-209) (by norm_num)]
    norm_num
  have hbmin : (generate_quote cfgC2x reqC2x).min_price = -1071/100 := by
    rw [generate_quote_brutto_min, hnetmin, hvatmin,
      round2_eval ((-9 : ℚ) + (-171/100)) (-1071) (by norm_num)]
    norm_num
  have hbmax : (generate_quote cfgC2x reqC2x).max_price = -1309/100 := by
    rw [generate_quote_brutto_max, hnetmax, hvatmax,
      round2_eval ((-11 : ℚ) + (-209/100)) (-1309) (by norm_num)]
    norm_num
  refine ⟨by simp [reqC2x, reqZero], by simp [reqC2x, reqZero],
    by simp [reqC2x, reqZero], by simp [reqC2x, reqZero],
    by simp [reqC2x, reqZero],
    by simp [cfgC2x, cfgZero], by simp [cfgC2x, cfgZero], by simp [cfgC2x, cfgZero], ?_⟩
  rw [hbmin, hbmax]
  norm_num

/-- Test configuration for C2 (witness): the spec §8 end-to-end
scenario rates — 25/35 €/m³, 2 €/km near, 1 €/km far beyond 50 km,
60/80 €/h labor, lift 350/500, 15% floor surcharge, 19% VAT. -/
def cfgC2w : PricingConfig :=
  { cfgZero with base_rate_m3_min := 25, base_rate_m3_max := 35,
                 rate_km_near := 2, rate_km_far := 1, km_threshold := 50,
                 hourly_labor_min := 60, hourly_labor_max := 80,
                 external_lift_cost_min := 350, external_lift_cost_max := 500,
                 floor_surcharge_percent := 3/20, vat_rate := 19/100 }

/-- Test request for C2 (witness): 40 m³ over 50 km, no floors, no
services. -/
def reqC2w : MoveRequest := { reqZero with volume := 40, distance_km := 50 }

/-- Component sums of the C2 witness input: volume (1000, 1400),
distance (90, 110), labor 4.8 h × (60, 80) = (288, 384); totals
(1378, 1894) as in the spec scenario. -/
theorem cfgC2w_components :
    net_components_min cfgC2w reqC2w = 1378 ∧ net_components_max cfgC2w reqC2w = 1894 := by
  constructor <;>
    simp [net_components_min, net_components_max, quote_man_hours,
      calculate_man_hours, calculate_distance_cost, calculate_floor_surcharge,
      calculate_services_cost, calculate_heavy_item_surcharges,
      cfgC2w, cfgZero, reqC2w, reqZero, max_def] <;>
    norm_num

/-- Combined multiplier of the C2 witness input is 1. -/
theorem cfgC2w_mult : combined_mult cfgC2w reqC2w = 1 := by
  simp [combined_mult, get_regional_multiplier, get_seasonal_multiplier,
    cfgC2w, cfgZero, reqC2w, reqZero]

/-- C2 witness: the invariants at the spec §8 scenario, with the
concrete totals net (1378.00, 1894.00), VAT (261.82, 359.86) and gross
(1639.82, 2253.86). -/
theorem C2_witness :
    (generate_quote cfgC2w reqC2w).min_price ≤ (generate_quote cfgC2w reqC2w).max_price
    ∧ (generate_quote cfgC2w reqC2w).min_price_netto
        + (generate_quote cfgC2w reqC2w).vat_amount_min
        = (generate_quote cfgC2w reqC2w).min_price
    ∧ (generate_quote cfgC2w reqC2w).min_price_netto = 1378
    ∧ (generate_quote cfgC2w reqC2w).max_price_netto = 1894
    ∧ (generate_quote cfgC2w reqC2w).min_price = 163982/100
    ∧ (generate_quote cfgC2w reqC2w).max_price = 225386/100 := by
  have key := C2_invariants cfgC2w reqC2w
    (by simp [reqC2w, reqZero]) (by simp [reqC2w, reqZero])
    (by simp [reqC2w, reqZero]) (by simp [reqC2w, reqZero])
    (by simp [reqC2w, reqZero])
    (by norm_num [cfgC2w, cfgZero]) (by norm_num [cfgC2w, cfgZero])
    (by norm_num [cfgC2w, cfgZero]) (by norm_num [cfgC2w, cfgZero])
    (by norm_num [cfgC2w, cfgZero]) (by norm_num [cfgC2w, cfgZero])
    (by norm_num [cfgC2w, cfgZero]) (by norm_num [cfgC2w, cfgZero])
    (by simp [get_regional_multiplier, cfgC2w, cfgZero, reqC2w, reqZero])
    (by simp [get_regional_multiplier, cfgC2w, cfgZero, reqC2w, reqZero])
    (by simp [get_seasonal_multiplier, cfgC2w, cfgZero, reqC2w, reqZero])
  have hpct : get_weekend_holiday_surcharge cfgC2w reqC2w.moving_date = 0 := rfl
  have hvr : cfgC2w.vat_rate = 19/100 := rfl
  have hnetmin : (generate_quote cfgC2w reqC2w).min_price_netto = 1378 := by
    rw [generate_quote_netto_min, cfgC2w_components.1, cfgC2w_mult, hpct,
      if_neg (by norm_num), mul_one, mul_one,
      round2_eval 1378 137800 (by norm_num)]
    norm_num
  have hnetmax : (generate_quote cfgC2w reqC2w).max_price_netto = 1894 := by
    rw [generate_quote_netto_max, cfgC2w_components.2, cfgC2w_mult, hpct,
      if_neg (by norm_num), mul_one, mul_one,
      round2_eval 1894 189400 (by norm_num)]
    norm_num
  have hvatmin : (generate_quote cfgC2w reqC2w).vat_amount_min = 26182/100 := by
    rw [generate_quote_vat_min, hnetmin, hvr,
      round2_eval ((1378 : ℚ) * (19/100)) 26182 (by norm_num)]
    norm_num
  have hvatmax : (generate_quote cfgC2w reqC2w).vat_amount_max = 35986/100 := by
    rw [generate_quote_vat_max, hnetmax, hvr,
      round2_eval ((1894 : ℚ) * (19/100)) 35986 (by norm_num)]
    norm_num
  have hbmin : (generate_quote cfgC2w reqC2w).min_price = 163982/100 := by
    rw [generate_quote_brutto_min, hnetmin, hvatmin,
      round2_eval ((1378 : ℚ) + 26182/100) 163982 (by norm_num)]
    norm_num
  have hbmax : (generate_quote cfgC2w reqC2w).max_price = 225386/100 := by
    rw [generate_quote_brutto_max, hnetmax, hvatmax,
      round2_eval ((1894 : ℚ) + 35986/100) 225386 (by norm_num)]
    norm_num
  exact ⟨key.1, key.2.2.1, hnetmin, hnetmax, hbmin, hbmax⟩
